import Mathlib

/-!
Shallow embedding of the `defined_client` Python package (files
`src/defined_client/client.py`, `src/defined_client/exceptions.py`,
`src/defined_client/resources.py`) together with theorems settling the
spec claims about its request/response translation and error mapping.

JSON values are modelled by an inductive type; Python dictionaries become
association lists (insertion ordered); Python `None` becomes `Option.none`;
raising an exception becomes returning `Except.error`.
-/

namespace DefinedClient

/-- JSON values, as produced by `response.json()` and consumed by request
    bodies.  Numbers are modelled as integers (the client only ever puts
    integers such as `listenPort` and `pageSize` on the wire). -/
inductive Json where
  | null : Json
  | bool (b : Bool) : Json
  | num (n : Int) : Json
  | str (s : String) : Json
  | arr (xs : List Json) : Json
  | obj (fields : List (String × Json)) : Json
  deriving Repr

/-- Python truthiness of a JSON value (`bool(v)`): `None`, `False`, `0`,
    `""`, `[]` and `{}` are falsy, everything else truthy. -/
def Json.truthy : Json → Bool
  | .null => false
  | .bool b => b
  | .num n => n != 0
  | .str s => s != ""
  | .arr xs => !xs.isEmpty
  | .obj fs => !fs.isEmpty

/-- `payload.get(key)` on a payload known to be a JSON object: the value
    stored under `key` when present, otherwise `none`.  Theorems use this
    only under hypotheses confining the payload to objects (where Python's
    `dict.get` behaves this way); `Json.dictGet?` below models the
    unrestricted call, whose non-dict case raises `AttributeError`. -/
def Json.get? : Json → String → Option Json
  | .obj fields, k => (fields.find? (fun p => p.1 == k)).map Prod.snd
  | _, _ => none

/-- `payload.get(key)` exactly as Python executes it: on a dict, `some` of
    the lookup result (the inner `none` being Python `None` for an absent
    key); on any non-dict value parsed from a valid JSON body (array,
    number, string, `null`, boolean) the attribute lookup raises an
    uncaught `AttributeError`, modelled by the outer `none`. -/
def Json.dictGet? : Json → String → Option (Option Json)
  | .obj fields, k => some ((fields.find? (fun p => p.1 == k)).map Prod.snd)
  | _, _ => none

/-- Is the JSON value an object (a Python dict)? -/
def Json.isObj : Json → Bool
  | .obj _ => true
  | _ => false

/-- `payload.get(key, default)` on a parsed JSON dictionary. -/
def Json.getD (j : Json) (k : String) (d : Json) : Json :=
  (j.get? k).getD d

/-- An HTTP response as `_handle_response` sees it: the status code, the raw
    body (`response.content`, a byte string modelled as a `String`), and the
    result of attempting to parse the body as JSON (`response.json()`):
    `some v` when the body parses to the value `v`, `none` when parsing
    raises `ValueError`. -/
structure HTTPResponse where
  status_code : Nat
  content : String
  jsonBody : Option Json
  deriving Repr

/-- `response.ok` from the `requests` library: `raise_for_status` raises
    exactly for status codes in `[400, 600)`, so `ok` is true for every
    status below 400 or at 600 and above. -/
def HTTPResponse.ok (r : HTTPResponse) : Bool :=
  decide (r.status_code < 400 ∨ 600 ≤ r.status_code)

/-- The exception classes of `exceptions.py`.  `definedClientError` is the
    base class `DefinedClientError`; the others are its subclasses. -/
inductive ErrKind where
  | definedClientError
  | validationError
  | authenticationError
  | permissionDeniedError
  | notFoundError
  | serverError
  deriving Repr, DecidableEq

/-- The observable state of a raised `DefinedClientError` (or subclass):
    its class, `message`, `status_code` and `errors` attributes.  The raw
    `response` attribute is not modelled (it is the argument itself). -/
structure ApiError where
  kind : ErrKind
  message : String
  status_code : Option Nat
  errors : Json
  deriving Repr

/-- `DefinedClientError.__init__`: stores message and status code, and sets
    `self.errors = errors or []`, i.e. the empty list when the `errors`
    argument is absent (`None`) or falsy. -/
def mkError (kind : ErrKind) (message : String) (status_code : Option Nat)
    (errors : Option Json) : ApiError :=
  { kind := kind
    message := message
    status_code := status_code
    errors := match errors with
      | none => .arr []
      | some v => if v.truthy then v else .arr [] }

/-- Lines 196–234 of `client.py`: the pure status-code dispatch of the
    error path, the `errors` value (whatever `payload.get("errors")`
    returned) reaching only the 400 branch. -/
def statusError (status : Nat) (errors : Option Json) : ApiError :=
  if status = 400 then
    mkError .validationError "Validation error" (some status) errors
  else if status = 401 then
    mkError .authenticationError "Authentication failed" (some status) none
  else if status = 403 then
    mkError .permissionDeniedError "Permission denied" (some status) none
  else if status = 404 then
    mkError .notFoundError "Resource not found" (some status) none
  else if 500 ≤ status ∧ status < 600 then
    mkError .serverError "Server error" (some status) none
  else
    mkError .definedClientError
      ("Unexpected API error (" ++ toString status ++ ")") (some status) none

/-- The error path of `DefinedClient._handle_response` (the code after the
    `response.ok` block): parse the payload safely (`{}` on a `ValueError`
    — only `ValueError` is caught), run `errors = payload.get("errors")` —
    which raises an uncaught `AttributeError` (result `none`) when the body
    parsed to valid non-dict JSON — then dispatch on the status code. -/
def classify_error (r : HTTPResponse) : Option ApiError :=
  let payload := r.jsonBody.getD (.obj [])
  match payload.dictGet? "errors" with
  | none => none
  | some errors => some (statusError r.status_code errors)

/-- The observable outcomes of `_handle_response`: a returned JSON value,
    a deliberately raised `DefinedClientError` (or subclass), or the
    uncaught `AttributeError` escaping from `payload.get` when an error
    body parses to valid non-dict JSON. -/
inductive HandleResult where
  | ok (v : Json) : HandleResult
  | error (e : ApiError) : HandleResult
  | attributeError : HandleResult
  deriving Repr

/-- `DefinedClient._handle_response`: success path for `response.ok`
    (204/empty body returns `{}`, otherwise the parsed JSON, with a
    `DefinedClientError` for an unparseable body), error path classifying
    the status code into the exception hierarchy — unless `payload.get`
    crashes first on a non-dict payload. -/
def handle_response (r : HTTPResponse) : HandleResult :=
  if r.ok then
    if r.status_code = 204 ∨ r.content = "" then
      .ok (.obj [])
    else
      match r.jsonBody with
      | some v => .ok v
      | none =>
          .error (mkError .definedClientError "Invalid JSON response"
            (some r.status_code) none)
  else
    match classify_error r with
    | some e => .error e
    | none => .attributeError

/-- What the network layer hands back to `_request`: either a
    `requests.exceptions.RequestException` (timeout, connection refused,
    DNS failure, ...) before any HTTP status exists, or a response. -/
inductive TransportOutcome where
  | networkFailure : TransportOutcome
  | response (r : HTTPResponse) : TransportOutcome
  deriving Repr

/-- `DefinedClient._request` after the URL is built and the call issued:
    a `RequestException` is re-raised as `DefinedClientError("Network error")`
    (no status code), otherwise the response goes to `_handle_response`. -/
def request_outcome : TransportOutcome → HandleResult
  | .networkFailure => .error (mkError .definedClientError "Network error" none none)
  | .response r => handle_response r

/-- The exception class of an outcome, `none` for a normal return or an
    uncaught `AttributeError` (which is no `DefinedClientError` at all). -/
def kindOf : HandleResult → Option ErrKind
  | .error e => some e.kind
  | _ => none

/-- `base_url.rstrip('/')` at the character-list level: remove every
    trailing slash. -/
def dropTrailingSlashes (l : List Char) : List Char :=
  (l.reverse.dropWhile (fun c => c == '/')).reverse

/-- `endpoint.lstrip('/')` at the character-list level: remove every
    leading slash. -/
def dropLeadingSlashes (l : List Char) : List Char :=
  l.dropWhile (fun c => c == '/')

/-- `base_url.rstrip('/')`. -/
def rstripSlash (s : String) : String :=
  String.mk (dropTrailingSlashes s.toList)

/-- `endpoint.lstrip('/')`. -/
def lstripSlash (s : String) : String :=
  String.mk (dropLeadingSlashes s.toList)

/-- The URL built by `_request`:
    `f"{self.base_url.rstrip('/')}/{endpoint.lstrip('/')}"`. -/
def buildUrl (base endpoint : String) : String :=
  rstripSlash base ++ "/" ++ lstripSlash endpoint

/-! ### Resource façade (`resources.py`)

Request bodies and query-parameter dictionaries are modelled as insertion
ordered association lists `List (String × Json)`; an optional Python
parameter becomes an `Option` field defaulting to `none`. -/

/-- `BaseResource._build_params`: keep exactly the keyword arguments whose
    value is not `None`. -/
def build_params (kwargs : List (String × Option Json)) : List (String × Json) :=
  kwargs.filterMap (fun p => p.2.map (fun v => (p.1, v)))

/-- `if x: body[key] = x` for an optional string parameter: the entry is
    added only when the value is supplied and truthy (non-empty). -/
def optStrEntry (key : String) (o : Option String) : List (String × Json) :=
  match o with
  | none => []
  | some s => if s = "" then [] else [(key, .str s)]

/-- `if x: body[key] = x` for an optional list-of-strings parameter. -/
def optStrListEntry (key : String) (o : Option (List String)) :
    List (String × Json) :=
  match o with
  | none => []
  | some l => if l.isEmpty then [] else [(key, .arr (l.map .str))]

/-- `if x: body[key] = x` for an optional list-of-objects parameter. -/
def optJsonListEntry (key : String) (o : Option (List Json)) :
    List (String × Json) :=
  match o with
  | none => []
  | some l => if l.isEmpty then [] else [(key, .arr l)]

/-- `if x is not None: body[key] = x`: the entry is added whenever a value
    is supplied, truthy or not. -/
def optEntry (key : String) (o : Option Json) : List (String × Json) :=
  match o with
  | none => []
  | some v => [(key, v)]

/-- Does the serialized body/query contain an entry for `key`? -/
def hasKey (body : List (String × Json)) (key : String) : Bool :=
  body.any (fun p => p.1 == key)

/-- `response.get("data", {})`: the envelope unwrapping shared by every
    single-resource operation. -/
def getData (resp : Json) : Json :=
  resp.getD "data" (.obj [])

/-- The common `include_counts`/`cursor`/`page_size` parameters of the
    simple list endpoints (`Roles.list`, `Routes.list`, `Tags.list`,
    `Networks.list`). -/
structure PageArgs where
  include_counts : Bool := false
  cursor : Option String := none
  page_size : Int := 25

/-- `includeCounts`/`cursor`/`pageSize` through `_build_params`. -/
def pageParams (a : PageArgs) : List (String × Json) :=
  build_params
    [("includeCounts", some (.bool a.include_counts)),
     ("cursor", a.cursor.map .str),
     ("pageSize", some (.num a.page_size))]

/-- Arguments of `Hosts.create` and `Hosts.create_with_enrollment`. -/
structure Hosts.CreateArgs where
  name : String
  network_id : String
  role_id : Option String := none
  ip_address : Option String := none
  static_addresses : Option (List String) := none
  listen_port : Int := 0
  is_lighthouse : Bool := false
  is_relay : Bool := false
  tags : Option (List String) := none
  config_overrides : Option (List Json) := none

/-- The request body built by `Hosts.create`: five always-present keys,
    then the truthy optional parameters in source order. -/
def Hosts.create_body (a : Hosts.CreateArgs) : List (String × Json) :=
  [("name", .str a.name),
   ("networkID", .str a.network_id),
   ("listenPort", .num a.listen_port),
   ("isLighthouse", .bool a.is_lighthouse),
   ("isRelay", .bool a.is_relay)]
    ++ optStrEntry "roleID" a.role_id
    ++ optStrEntry "ipAddress" a.ip_address
    ++ optStrListEntry "staticAddresses" a.static_addresses
    ++ optStrListEntry "tags" a.tags
    ++ optJsonListEntry "configOverrides" a.config_overrides

def Hosts.create_path : String := "/v1/hosts"

def Hosts.create_result (resp : Json) : Json := getData resp

/-- Arguments of `Hosts.list`. -/
structure Hosts.ListArgs where
  include_counts : Bool := false
  cursor : Option String := none
  page_size : Int := 25
  filter_endpoint_oidc_user_id : Option String := none
  filter_is_blocked : Option Bool := none
  filter_is_lighthouse : Option Bool := none
  filter_is_relay : Option Bool := none
  filter_metadata_last_seen_at : Option String := none
  filter_metadata_platform : Option String := none
  filter_metadata_update_available : Option Bool := none
  filter_role_id : Option String := none

/-- The query parameters built by `Hosts.list` through `_build_params`,
    with the dotted filter wire names. -/
def Hosts.list_params (a : Hosts.ListArgs) : List (String × Json) :=
  build_params
    [("includeCounts", some (.bool a.include_counts)),
     ("cursor", a.cursor.map .str),
     ("pageSize", some (.num a.page_size)),
     ("filter.endpointOIDCUserID", a.filter_endpoint_oidc_user_id.map .str),
     ("filter.isBlocked", a.filter_is_blocked.map .bool),
     ("filter.isLighthouse", a.filter_is_lighthouse.map .bool),
     ("filter.isRelay", a.filter_is_relay.map .bool),
     ("filter.metadata.lastSeenAt", a.filter_metadata_last_seen_at.map .str),
     ("filter.metadata.platform", a.filter_metadata_platform.map .str),
     ("filter.metadata.updateAvailable", a.filter_metadata_update_available.map .bool),
     ("filter.roleID", a.filter_role_id.map .str)]

def Hosts.list_result (resp : Json) : Json := resp

def Hosts.get_path (host_id : String) : String := "/v1/hosts/" ++ host_id

def Hosts.get_result (resp : Json) : Json := getData resp

def Hosts.delete_path (host_id : String) : String := "/v1/hosts/" ++ host_id

def Hosts.delete_result (resp : Json) : Json := getData resp

/-- Arguments of `Hosts.update` (all optional, `is not None` semantics). -/
structure Hosts.UpdateArgs where
  name : Option String := none
  role_id : Option String := none
  static_addresses : Option (List String) := none
  listen_port : Option Int := none
  tags : Option (List String) := none
  config_overrides : Option (List Json) := none

/-- The request body built by `Hosts.update`: every parameter that is not
    `None` is included, empty or not. -/
def Hosts.update_body (a : Hosts.UpdateArgs) : List (String × Json) :=
  optEntry "name" (a.name.map .str)
    ++ optEntry "roleID" (a.role_id.map .str)
    ++ optEntry "staticAddresses" (a.static_addresses.map (fun l => .arr (l.map .str)))
    ++ optEntry "listenPort" (a.listen_port.map .num)
    ++ optEntry "tags" (a.tags.map (fun l => .arr (l.map .str)))
    ++ optEntry "configOverrides" (a.config_overrides.map .arr)

def Hosts.update_path (host_id : String) : String := "/v2/hosts/" ++ host_id

def Hosts.update_result (resp : Json) : Json := getData resp

def Hosts.block_path (host_id : String) : String := "/v1/hosts/" ++ host_id ++ "/block"

def Hosts.block_result (resp : Json) : Json := getData resp

def Hosts.unblock_path (host_id : String) : String := "/v1/hosts/" ++ host_id ++ "/unblock"

def Hosts.unblock_result (resp : Json) : Json := getData resp

/-- The request body built by `Hosts.debug_command`: the command, plus an
    `args` key only when extra keyword arguments were given. -/
def Hosts.debug_command_body (command_type : String)
    (kwargs : List (String × Json)) : List (String × Json) :=
  [("command", .str command_type)]
    ++ (if kwargs.isEmpty then [] else [("args", .obj kwargs)])

def Hosts.debug_command_path (host_id : String) : String :=
  "/v1/hosts/" ++ host_id ++ "/command"

def Hosts.debug_command_result (resp : Json) : Json := getData resp

def Hosts.create_enrollment_code_path (host_id : String) : String :=
  "/v1/hosts/" ++ host_id ++ "/enrollment-code"

def Hosts.create_enrollment_code_result (resp : Json) : Json := getData resp

/-- The request body built by `Hosts.create_with_enrollment`
    (same construction as `Hosts.create`). -/
def Hosts.create_with_enrollment_body (a : Hosts.CreateArgs) :
    List (String × Json) :=
  [("name", .str a.name),
   ("networkID", .str a.network_id),
   ("listenPort", .num a.listen_port),
   ("isLighthouse", .bool a.is_lighthouse),
   ("isRelay", .bool a.is_relay)]
    ++ optStrEntry "roleID" a.role_id
    ++ optStrEntry "ipAddress" a.ip_address
    ++ optStrListEntry "staticAddresses" a.static_addresses
    ++ optStrListEntry "tags" a.tags
    ++ optJsonListEntry "configOverrides" a.config_overrides

def Hosts.create_with_enrollment_path : String := "/v1/host-and-enrollment-code"

def Hosts.create_with_enrollment_result (resp : Json) : Json := getData resp

/-- Arguments of `Roles.create`. -/
structure Roles.CreateArgs where
  name : String
  description : Option String := none
  firewall_rules : Option (List Json) := none

/-- The request body built by `Roles.create` (`is not None` semantics for
    the optional parameters). -/
def Roles.create_body (a : Roles.CreateArgs) : List (String × Json) :=
  [("name", .str a.name)]
    ++ optEntry "description" (a.description.map .str)
    ++ optEntry "firewallRules" (a.firewall_rules.map .arr)

def Roles.create_path : String := "/v1/roles"

def Roles.create_result (resp : Json) : Json := getData resp

def Roles.list_params (a : PageArgs) : List (String × Json) := pageParams a

def Roles.list_result (resp : Json) : Json := resp

def Roles.get_path (role_id : String) : String := "/v1/roles/" ++ role_id

def Roles.get_result (resp : Json) : Json := getData resp

/-- Arguments of `Roles.update`. -/
structure Roles.UpdateArgs where
  description : Option String := none
  firewall_rules : Option (List Json) := none

/-- The request body built by `Roles.update`. -/
def Roles.update_body (a : Roles.UpdateArgs) : List (String × Json) :=
  optEntry "description" (a.description.map .str)
    ++ optEntry "firewallRules" (a.firewall_rules.map .arr)

def Roles.update_path (role_id : String) : String := "/v1/roles/" ++ role_id

def Roles.update_result (resp : Json) : Json := getData resp

def Roles.delete_path (role_id : String) : String := "/v1/roles/" ++ role_id

def Roles.delete_result (resp : Json) : Json := getData resp

/-- Arguments of `Routes.create`; `routable_cidrs` is an opaque JSON
    object mapping CIDR ranges to install flags. -/
structure Routes.CreateArgs where
  name : String
  description : Option String := none
  router_host_id : Option String := none
  routable_cidrs : Option Json := none
  firewall_rules : Option (List Json) := none

/-- The request body built by `Routes.create`. -/
def Routes.create_body (a : Routes.CreateArgs) : List (String × Json) :=
  [("name", .str a.name)]
    ++ optEntry "description" (a.description.map .str)
    ++ optEntry "routerHostID" (a.router_host_id.map .str)
    ++ optEntry "routableCIDRs" a.routable_cidrs
    ++ optEntry "firewallRules" (a.firewall_rules.map .arr)

def Routes.create_path : String := "/v1/routes"

def Routes.create_result (resp : Json) : Json := getData resp

def Routes.list_params (a : PageArgs) : List (String × Json) := pageParams a

def Routes.list_result (resp : Json) : Json := resp

def Routes.get_path (route_id : String) : String := "/v1/routes/" ++ route_id

def Routes.get_result (resp : Json) : Json := getData resp

/-- Arguments of `Routes.update`: `name` is required, the rest optional. -/
structure Routes.UpdateArgs where
  name : String
  description : Option String := none
  router_host_id : Option String := none
  routable_cidrs : Option Json := none
  firewall_rules : Option (List Json) := none

/-- The request body built by `Routes.update`. -/
def Routes.update_body (a : Routes.UpdateArgs) : List (String × Json) :=
  [("name", .str a.name)]
    ++ optEntry "description" (a.description.map .str)
    ++ optEntry "routerHostID" (a.router_host_id.map .str)
    ++ optEntry "routableCIDRs" a.routable_cidrs
    ++ optEntry "firewallRules" (a.firewall_rules.map .arr)

def Routes.update_path (route_id : String) : String := "/v1/routes/" ++ route_id

def Routes.update_result (resp : Json) : Json := getData resp

def Routes.delete_path (route_id : String) : String := "/v1/routes/" ++ route_id

def Routes.delete_result (resp : Json) : Json := getData resp

/-- Arguments of `Tags.create`. -/
structure Tags.CreateArgs where
  name : String
  description : Option String := none
  config_overrides : Option (List Json) := none
  before : Option String := none
  after : Option String := none
  route_subscriptions : Option (List String) := none

/-- The request body built by `Tags.create`. -/
def Tags.create_body (a : Tags.CreateArgs) : List (String × Json) :=
  [("name", .str a.name)]
    ++ optEntry "description" (a.description.map .str)
    ++ optEntry "configOverrides" (a.config_overrides.map .arr)
    ++ optEntry "before" (a.before.map .str)
    ++ optEntry "after" (a.after.map .str)
    ++ optEntry "routeSubscriptions"
        (a.route_subscriptions.map (fun l => .arr (l.map .str)))

def Tags.create_path : String := "/v1/tags"

def Tags.create_result (resp : Json) : Json := getData resp

def Tags.list_params (a : PageArgs) : List (String × Json) := pageParams a

def Tags.list_path : String := "/v2/tags"

def Tags.list_result (resp : Json) : Json := resp

/-- The path built by `Tags.get`: `f"/v1/tags/{tag}"`, the tag name
    interpolated verbatim. -/
def Tags.get_path (tag : String) : String := "/v1/tags/" ++ tag

def Tags.get_result (resp : Json) : Json := getData resp

/-- Arguments of `Tags.update`. -/
structure Tags.UpdateArgs where
  description : Option String := none
  config_overrides : Option (List Json) := none
  before : Option String := none
  after : Option String := none
  route_subscriptions : Option (List String) := none

/-- The request body built by `Tags.update`. -/
def Tags.update_body (a : Tags.UpdateArgs) : List (String × Json) :=
  optEntry "description" (a.description.map .str)
    ++ optEntry "configOverrides" (a.config_overrides.map .arr)
    ++ optEntry "before" (a.before.map .str)
    ++ optEntry "after" (a.after.map .str)
    ++ optEntry "routeSubscriptions"
        (a.route_subscriptions.map (fun l => .arr (l.map .str)))

/-- The path built by `Tags.update`: `f"/v1/tags/{tag}"`. -/
def Tags.update_path (tag : String) : String := "/v1/tags/" ++ tag

def Tags.update_result (resp : Json) : Json := getData resp

/-- The path built by `Tags.delete`: `f"/v1/tags/{tag}"`. -/
def Tags.delete_path (tag : String) : String := "/v1/tags/" ++ tag

def Tags.delete_result (resp : Json) : Json := getData resp

/-- The request body built by `Networks.create` (no optional parameters). -/
def Networks.create_body (name cidr : String) : List (String × Json) :=
  [("name", .str name), ("cidr", .str cidr)]

def Networks.create_path : String := "/v1/networks"

def Networks.create_result (resp : Json) : Json := getData resp

def Networks.list_params (a : PageArgs) : List (String × Json) := pageParams a

def Networks.list_result (resp : Json) : Json := resp

def Networks.get_path (network_id : String) : String := "/v1/networks/" ++ network_id

def Networks.get_result (resp : Json) : Json := getData resp

/-- Arguments of `Networks.update`. -/
structure Networks.UpdateArgs where
  name : Option String := none
  cidr : Option String := none

/-- The request body built by `Networks.update`. -/
def Networks.update_body (a : Networks.UpdateArgs) : List (String × Json) :=
  optEntry "name" (a.name.map .str)
    ++ optEntry "cidr" (a.cidr.map .str)

def Networks.update_path (network_id : String) : String :=
  "/v1/networks/" ++ network_id

def Networks.update_result (resp : Json) : Json := getData resp

/-- Arguments of `AuditLogs.list`. -/
structure AuditLogs.ListArgs where
  include_counts : Bool := false
  cursor : Option String := none
  page_size : Int := 25
  filter_target_id : Option String := none
  filter_target_type : Option String := none

/-- The query parameters built by `AuditLogs.list` through
    `_build_params`. -/
def AuditLogs.list_params (a : AuditLogs.ListArgs) : List (String × Json) :=
  build_params
    [("includeCounts", some (.bool a.include_counts)),
     ("cursor", a.cursor.map .str),
     ("pageSize", some (.num a.page_size)),
     ("filter.targetID", a.filter_target_id.map .str),
     ("filter.targetType", a.filter_target_type.map .str)]

def AuditLogs.list_result (resp : Json) : Json := resp

def Downloads.list_path : String := "/v1/downloads"

def Downloads.list_result (resp : Json) : Json := resp

/-! ### Spec-side comparison definitions -/

/-- Modelled from the spec's classification table (section 4.1), for
    comparison with `classify_error`: the error kind the spec assigns to
    each status code reaching the error path. -/
def specErrorKind (status : Nat) : ErrKind :=
  if status = 400 then .validationError
  else if status = 401 then .authenticationError
  else if status = 403 then .permissionDeniedError
  else if status = 404 then .notFoundError
  else if 500 ≤ status ∧ status < 600 then .serverError
  else .definedClientError

/-- Upper-case hexadecimal digit for `n < 16`. -/
def hexDigit (n : Nat) : Char :=
  if n < 10 then Char.ofNat (48 + n) else Char.ofNat (55 + n)

/-- RFC 3986 unreserved characters: letters, digits, `-`, `.`, `_`, `~`. -/
def isUnreservedChar (c : Char) : Bool :=
  c.isAlphanum || c == '-' || c == '.' || c == '_' || c == '~'

/-- One character percent-encoded: unreserved characters stay raw, every
    other (ASCII) character becomes `%` plus two hex digits. -/
def percentEncodeChar (c : Char) : List Char :=
  if isUnreservedChar c then [c]
  else ['%', hexDigit (c.toNat / 16 % 16), hexDigit (c.toNat % 16)]

/-- Modelled from the spec (section 4.2, path-parameter encoding), for
    comparison with the paths the code builds: percent-encoding of a path
    identifier, so that embedded reserved characters never appear raw. -/
def specPercentEncode (s : String) : String :=
  String.mk (s.toList.foldr (fun c acc => percentEncodeChar c ++ acc) [])

/-! ### Helper lemmas -/

lemma ok_false_of_error_status (r : HTTPResponse)
    (h1 : 400 ≤ r.status_code) (h2 : r.status_code < 600) : r.ok = false := by
  simp only [HTTPResponse.ok, decide_eq_false_iff_not]
  omega

lemma ok_true_of_success_status (r : HTTPResponse)
    (h : r.status_code < 400) : r.ok = true := by
  simp only [HTTPResponse.ok, decide_eq_true_eq]
  omega

lemma dictGet?_eq_none (j : Json) (k : String) (h : j.isObj = false) :
    j.dictGet? k = none := by
  cases j <;> simp [Json.isObj, Json.dictGet?] at h ⊢

lemma statusError_kind (s : Nat) (o : Option Json) :
    (statusError s o).kind = specErrorKind s := by
  simp only [statusError, specErrorKind]
  split_ifs <;> simp [mkError]

lemma statusError_status_code (s : Nat) (o : Option Json) :
    (statusError s o).status_code = some s := by
  simp only [statusError]
  split_ifs <;> simp [mkError]

lemma statusError_400_errors (o : Option Json) :
    (statusError 400 o).errors
      = match o with
        | none => Json.arr []
        | some v => if v.truthy then v else Json.arr [] := by
  simp [statusError, mkError]

lemma statusError_ne400_errors (s : Nat) (o : Option Json) (h : s ≠ 400) :
    (statusError s o).errors = .arr [] := by
  simp only [statusError]
  split_ifs with g1
  · exact absurd g1 h
  all_goals simp [mkError]

lemma classify_error_eq_some (r : HTTPResponse) (o : Option Json)
    (h : (r.jsonBody.getD (.obj [])).dictGet? "errors" = some o) :
    classify_error r = some (statusError r.status_code o) := by
  simp [classify_error, h]

lemma classify_error_eq_none (r : HTTPResponse)
    (h : (r.jsonBody.getD (.obj [])).isObj = false) :
    classify_error r = none := by
  simp [classify_error, dictGet?_eq_none _ _ h]

lemma classify_error_some_status (r : HTTPResponse) (e : ApiError)
    (h : classify_error r = some e) : e.status_code = some r.status_code := by
  cases hd : (r.jsonBody.getD (.obj [])).dictGet? "errors" with
  | none => simp [classify_error, hd] at h
  | some o =>
    simp [classify_error, hd] at h
    rw [← h]
    exact statusError_status_code _ _

lemma handle_response_error (r : HTTPResponse) (e : ApiError)
    (hok : r.ok = false) (h : classify_error r = some e) :
    handle_response r = .error e := by
  simp [handle_response, hok, h]

lemma handle_response_attr (r : HTTPResponse)
    (hok : r.ok = false) (h : classify_error r = none) :
    handle_response r = .attributeError := by
  simp [handle_response, hok, h]

lemma hasKey_nil (k : String) : hasKey [] k = false := rfl

lemma hasKey_cons (k' : String) (v : Json) (t : List (String × Json)) (k : String) :
    hasKey ((k', v) :: t) k = ((k' == k) || hasKey t k) := rfl

lemma hasKey_append (l₁ l₂ : List (String × Json)) (k : String) :
    hasKey (l₁ ++ l₂) k = (hasKey l₁ k || hasKey l₂ k) := by
  simp [hasKey]

lemma hasKey_optStrEntry_none (key k : String) :
    hasKey (optStrEntry key none) k = false := rfl

lemma hasKey_optStrEntry_ne (key k : String) (o : Option String) (h : key ≠ k) :
    hasKey (optStrEntry key o) k = false := by
  cases o with
  | none => rfl
  | some s => by_cases hs : s = "" <;> simp [optStrEntry, hasKey, hs, h]

lemma hasKey_optStrListEntry_none (key k : String) :
    hasKey (optStrListEntry key none) k = false := rfl

lemma hasKey_optStrListEntry_ne (key k : String) (o : Option (List String))
    (h : key ≠ k) : hasKey (optStrListEntry key o) k = false := by
  cases o with
  | none => rfl
  | some l => by_cases hl : l.isEmpty <;> simp [optStrListEntry, hasKey, hl, h]

lemma hasKey_optJsonListEntry_none (key k : String) :
    hasKey (optJsonListEntry key none) k = false := rfl

lemma hasKey_optJsonListEntry_ne (key k : String) (o : Option (List Json))
    (h : key ≠ k) : hasKey (optJsonListEntry key o) k = false := by
  cases o with
  | none => rfl
  | some l => by_cases hl : l.isEmpty <;> simp [optJsonListEntry, hasKey, hl, h]

lemma hasKey_optEntry_none (key k : String) :
    hasKey (optEntry key none) k = false := rfl

lemma hasKey_optEntry_ne (key k : String) (o : Option Json) (h : key ≠ k) :
    hasKey (optEntry key o) k = false := by
  cases o with
  | none => rfl
  | some v => simp [optEntry, hasKey, h]

lemma hasKey_build_params (kwargs : List (String × Option Json)) (k : String) :
    hasKey (build_params kwargs) k
      = kwargs.any (fun p => p.1 == k && p.2.isSome) := by
  induction kwargs with
  | nil => rfl
  | cons p t ih =>
    rcases p with ⟨k', o⟩
    cases o with
    | none =>
      have h1 : build_params ((k', (none : Option Json)) :: t) = build_params t := rfl
      rw [h1, ih, List.any_cons]
      simp
    | some v =>
      have h1 : build_params ((k', some v) :: t) = (k', v) :: build_params t := rfl
      rw [h1, hasKey_cons, ih, List.any_cons]
      simp

lemma getData_of_get? (resp v : Json) (h : resp.get? "data" = some v) :
    getData resp = v := by
  simp [getData, Json.getD, h]

lemma head_dropWhile_false (p : Char → Bool) (l : List Char) :
    ∀ c, (l.dropWhile p).head? = some c → p c = false := by
  induction l with
  | nil => intro c h; simp [List.dropWhile] at h
  | cons a t ih =>
    intro c h
    by_cases hp : p a = true
    · rw [List.dropWhile_cons_of_pos hp] at h
      exact ih c h
    · rw [List.dropWhile_cons_of_neg hp] at h
      simp at h
      subst h
      simpa using hp

lemma getLast_dropTrailingSlashes (l : List Char) :
    ∀ c, (dropTrailingSlashes l).getLast? = some c → c ≠ '/' := by
  intro c h
  unfold dropTrailingSlashes at h
  rw [List.getLast?_reverse] at h
  have := head_dropWhile_false (fun c => c == '/') l.reverse c h
  simpa using this

lemma head_dropLeadingSlashes (l : List Char) :
    ∀ c, (dropLeadingSlashes l).head? = some c → c ≠ '/' := by
  intro c h
  have := head_dropWhile_false (fun c => c == '/') l c h
  simpa using this

/-! ### Claim theorems -/

/-- Claim C1 (counterexample): the claim is false as stated, twice over.
    304 is a non-2xx status, yet `_handle_response` treats it as a success
    (`response.ok` is true for every status below 400) and returns the
    empty dict for a 304 response with an empty body instead of raising;
    and a 400 response whose body is the valid non-object JSON `[]`
    crashes with an uncaught `AttributeError` from `payload.get("errors")`
    instead of raising `ValidationError`. -/
theorem status_classification_counterexamples :
    handle_response ⟨304, "", none⟩ = .ok (.obj []) ∧
    ¬(200 ≤ 304 ∧ 304 < 300) ∧
    handle_response ⟨400, "[]", some (.arr [])⟩ = .attributeError :=
  ⟨rfl, by decide, rfl⟩

/-- Claim C1 (amended): for every response with status code in `[400, 600)`
    — the statuses `_handle_response` actually treats as errors — whose
    body is absent, unparseable, or parses to a JSON object (so that
    `payload.get("errors")` returns instead of raising `AttributeError`),
    an exception is raised whose kind is determined strictly by the status
    code as in the spec's table (400 validation, 401 authentication,
    403 permission-denied, 404 not-found, 5xx server, any other such
    status the generic `DefinedClientError`), carrying the status code,
    and in the generic case the message `Unexpected API error (<status>)`.
    Statuses outside `[400, 600)` go through the success path, and an
    error response whose body parses to valid non-object JSON raises an
    uncaught `AttributeError`, no `DefinedClientError` at all. -/
theorem error_status_classification (r : HTTPResponse)
    (h1 : 400 ≤ r.status_code) (h2 : r.status_code < 600) :
    (∀ o, (r.jsonBody.getD (.obj [])).dictGet? "errors" = some o →
      classify_error r = some (statusError r.status_code o) ∧
      handle_response r = .error (statusError r.status_code o) ∧
      (statusError r.status_code o).kind = specErrorKind r.status_code ∧
      (statusError r.status_code o).status_code = some r.status_code ∧
      (specErrorKind r.status_code = .definedClientError →
        (statusError r.status_code o).message
          = "Unexpected API error (" ++ toString r.status_code ++ ")")) ∧
    ((r.jsonBody.getD (.obj [])).isObj = false →
      classify_error r = none ∧ handle_response r = .attributeError) := by
  have hok : r.ok = false := ok_false_of_error_status r h1 h2
  constructor
  · intro o ho
    have hc := classify_error_eq_some r o ho
    refine ⟨hc, handle_response_error r _ hok hc, statusError_kind _ _,
      statusError_status_code _ _, ?_⟩
    simp only [statusError, specErrorKind]
    split_ifs <;> simp [mkError]
  · intro hobj
    have hc := classify_error_eq_none r hobj
    exact ⟨hc, handle_response_attr r hok hc⟩

/-- Claim C1 (witness): the amended classification applied to a concrete
    418 response with an empty body (generic fallback branch) and to a
    concrete 402 response with the non-object body `[]` (uncaught
    `AttributeError`). -/
theorem error_status_classification_witness :
    (classify_error ⟨418, "", none⟩ = some (statusError 418 none) ∧
     handle_response ⟨418, "", none⟩ = .error (statusError 418 none) ∧
     (statusError 418 none).kind = specErrorKind 418 ∧
     (statusError 418 none).status_code = some 418 ∧
     (specErrorKind 418 = .definedClientError →
       (statusError 418 none).message
         = "Unexpected API error (" ++ toString 418 ++ ")")) ∧
    (classify_error ⟨402, "[]", some (.arr [])⟩ = none ∧
     handle_response ⟨402, "[]", some (.arr [])⟩ = .attributeError) :=
  ⟨(error_status_classification ⟨418, "", none⟩ (by decide) (by decide)).1 none rfl,
   (error_status_classification ⟨402, "[]", some (.arr [])⟩ (by decide) (by decide)).2 rfl⟩

/-- Claim C2: for every 2xx response, `_handle_response` returns the empty
    dict when the status is 204 or the body is empty; otherwise it returns
    the parsed JSON body verbatim, and when the non-empty body is not valid
    JSON it raises `DefinedClientError` carrying the status code, never
    returning normally. -/
theorem success_response_handling (r : HTTPResponse)
    (h1 : 200 ≤ r.status_code) (h2 : r.status_code < 300) :
    (r.status_code = 204 ∨ r.content = "" → handle_response r = .ok (.obj [])) ∧
    (¬(r.status_code = 204 ∨ r.content = "") →
      (∀ v, r.jsonBody = some v → handle_response r = .ok v) ∧
      (r.jsonBody = none →
        handle_response r
          = .error (mkError .definedClientError "Invalid JSON response"
              (some r.status_code) none))) := by
  have hok : r.ok = true := ok_true_of_success_status r (by omega)
  constructor
  · intro h
    unfold handle_response
    rw [if_pos hok, if_pos h]
  · intro h
    constructor
    · intro v hv
      unfold handle_response
      rw [if_pos hok, if_neg h, hv]
    · intro hn
      unfold handle_response
      rw [if_pos hok, if_neg h, hn]

/-- Claim C2 (witness): the success handling applied to a concrete 200
    response with a parseable non-empty body, returned verbatim. -/
theorem success_response_handling_witness :
    ((⟨200, "[0]", some (.arr [.num 0])⟩ : HTTPResponse).status_code = 204 ∨
        (⟨200, "[0]", some (.arr [.num 0])⟩ : HTTPResponse).content = "" →
      handle_response ⟨200, "[0]", some (.arr [.num 0])⟩ = .ok (.obj [])) ∧
    (¬((⟨200, "[0]", some (.arr [.num 0])⟩ : HTTPResponse).status_code = 204 ∨
        (⟨200, "[0]", some (.arr [.num 0])⟩ : HTTPResponse).content = "") →
      (∀ v, (⟨200, "[0]", some (.arr [.num 0])⟩ : HTTPResponse).jsonBody = some v →
        handle_response ⟨200, "[0]", some (.arr [.num 0])⟩ = .ok v) ∧
      ((⟨200, "[0]", some (.arr [.num 0])⟩ : HTTPResponse).jsonBody = none →
        handle_response ⟨200, "[0]", some (.arr [.num 0])⟩
          = .error (mkError .definedClientError "Invalid JSON response"
              (some (⟨200, "[0]", some (.arr [.num 0])⟩ : HTTPResponse).status_code) none))) :=
  success_response_handling ⟨200, "[0]", some (.arr [.num 0])⟩ (by decide) (by decide)

/-- Claim C3 (counterexample): the claim is false as stated, twice over.
    For a 400 response whose JSON object body holds a non-array truthy
    value under `errors` (here the number 5), the raised `ValidationError`
    stores that value verbatim in its `errors` attribute — neither an
    array nor the empty sequence, although the body had no parseable
    errors array; and for a 400 response whose body is the valid
    non-object JSON `null`, `payload.get("errors")` crashes with an
    uncaught `AttributeError`, so no exception with an `errors` attribute
    is raised at all. -/
theorem validation_error_nonlist_errors :
    handle_response ⟨400, "e", some (.obj [("errors", .num 5)])⟩
      = .error (mkError .validationError "Validation error" (some 400)
          (some (.num 5))) ∧
    (mkError .validationError "Validation error" (some 400)
        (some (.num 5))).errors = .num 5 ∧
    Json.num 5 ≠ Json.arr [] ∧
    handle_response ⟨400, "null", some .null⟩ = .attributeError :=
  ⟨rfl, rfl, fun h => Json.noConfusion h, rfl⟩

/-- Claim C3 (amended): for every error-status response whose body is
    absent, unparseable, or parses to a JSON object (so that
    `payload.get("errors")` returns instead of raising `AttributeError`):
    when the status is 400 and the `errors` value is an array, the raised
    `ValidationError`'s `errors` attribute equals that array exactly; it
    is the empty list when the `errors` key is absent or falsy (or the
    body unparseable), but a truthy non-array value under `errors` is
    stored verbatim; for every other status the attribute is the empty
    list.  A 400 response whose body parses to valid non-object JSON
    raises an uncaught `AttributeError` instead. -/
theorem raised_errors_attribute (r : HTTPResponse)
    (h1 : 400 ≤ r.status_code) (h2 : r.status_code < 600) :
    (∀ o, (r.jsonBody.getD (.obj [])).dictGet? "errors" = some o →
      handle_response r = .error (statusError r.status_code o) ∧
      (r.status_code = 400 →
        (∀ xs, o = some (.arr xs) →
          (statusError r.status_code o).errors = .arr xs) ∧
        (o = none → (statusError r.status_code o).errors = .arr []) ∧
        (∀ v, o = some v →
          (statusError r.status_code o).errors
            = if v.truthy then v else .arr [])) ∧
      (r.status_code ≠ 400 → (statusError r.status_code o).errors = .arr [])) ∧
    ((r.jsonBody.getD (.obj [])).isObj = false →
      handle_response r = .attributeError) := by
  have hok : r.ok = false := ok_false_of_error_status r h1 h2
  constructor
  · intro o ho
    have hc := classify_error_eq_some r o ho
    refine ⟨handle_response_error r _ hok hc, ?_, fun hne => statusError_ne400_errors _ o hne⟩
    intro h400
    rw [h400]
    refine ⟨?_, ?_, ?_⟩
    · intro xs hxs
      subst hxs
      rw [statusError_400_errors]
      cases xs <;> simp [Json.truthy]
    · intro hnone
      subst hnone
      rw [statusError_400_errors]
    · intro v hv
      subst hv
      rw [statusError_400_errors]
  · intro hobj
    exact handle_response_attr r hok (classify_error_eq_none r hobj)

/-- Claim C3 (witness): the amended statement applied to a concrete 400
    response carrying an `errors` array with one `{path, message, code}`
    entry; the attribute equals the array exactly. -/
theorem raised_errors_attribute_witness :
    (statusError 400 (some (.arr
        [.obj [("path", .str "p"), ("message", .str "m"), ("code", .str "c")]]))).errors
      = .arr [.obj [("path", .str "p"), ("message", .str "m"), ("code", .str "c")]] :=
  (((raised_errors_attribute ⟨400, "e",
        some (.obj [("errors",
          .arr [.obj [("path", .str "p"), ("message", .str "m"), ("code", .str "c")]])])⟩
        (by decide) (by decide)).1
      (some (.arr [.obj [("path", .str "p"), ("message", .str "m"), ("code", .str "c")]]))
      rfl).2.1 rfl).1
    [.obj [("path", .str "p"), ("message", .str "m"), ("code", .str "c")]] rfl

/-- Claim C4: every single-resource get/create/update/delete operation
    returns only the value nested under the response's top-level `data`
    key, whereas every list operation returns the full response envelope
    unchanged. -/
theorem envelope_unwrapping (resp : Json) :
    (∀ v, resp.get? "data" = some v →
      Hosts.create_result resp = v ∧ Hosts.get_result resp = v ∧
      Hosts.delete_result resp = v ∧ Hosts.update_result resp = v ∧
      Hosts.block_result resp = v ∧ Hosts.unblock_result resp = v ∧
      Hosts.debug_command_result resp = v ∧
      Hosts.create_enrollment_code_result resp = v ∧
      Hosts.create_with_enrollment_result resp = v ∧
      Roles.create_result resp = v ∧ Roles.get_result resp = v ∧
      Roles.update_result resp = v ∧ Roles.delete_result resp = v ∧
      Routes.create_result resp = v ∧ Routes.get_result resp = v ∧
      Routes.update_result resp = v ∧ Routes.delete_result resp = v ∧
      Tags.create_result resp = v ∧ Tags.get_result resp = v ∧
      Tags.update_result resp = v ∧ Tags.delete_result resp = v ∧
      Networks.create_result resp = v ∧ Networks.get_result resp = v ∧
      Networks.update_result resp = v) ∧
    (Hosts.list_result resp = resp ∧ Roles.list_result resp = resp ∧
      Routes.list_result resp = resp ∧ Tags.list_result resp = resp ∧
      Networks.list_result resp = resp ∧ AuditLogs.list_result resp = resp ∧
      Downloads.list_result resp = resp) := by
  constructor
  · intro v h
    have hd : getData resp = v := getData_of_get? resp v h
    exact ⟨hd, hd, hd, hd, hd, hd, hd, hd, hd, hd, hd, hd, hd, hd, hd, hd, hd,
      hd, hd, hd, hd, hd, hd, hd⟩
  · exact ⟨rfl, rfl, rfl, rfl, rfl, rfl, rfl⟩

/-- Claim C4 (witness): unwrapping and list pass-through applied to a
    concrete envelope with a `data` payload and pagination metadata. -/
theorem envelope_unwrapping_witness :
    Hosts.get_result (.obj [("data", .str "d"), ("metadata", .null)]) = .str "d" ∧
    Roles.create_result (.obj [("data", .str "d"), ("metadata", .null)]) = .str "d" ∧
    Hosts.list_result (.obj [("data", .str "d"), ("metadata", .null)])
      = .obj [("data", .str "d"), ("metadata", .null)] :=
  ⟨((envelope_unwrapping (.obj [("data", .str "d"), ("metadata", .null)])).1
      (.str "d") rfl).2.1,
   ((envelope_unwrapping (.obj [("data", .str "d"), ("metadata", .null)])).1
      (.str "d") rfl).2.2.2.2.2.2.2.2.2.1,
   (envelope_unwrapping (.obj [("data", .str "d"), ("metadata", .null)])).2.1⟩

/-- Claim C5: for every resource operation and every optional parameter
    left unset (`None`), the serialized request body or query string
    contains no entry for the corresponding wire key — unset optionals are
    omitted entirely, never sent as null or empty. -/
theorem unset_optional_params_omitted :
    (∀ a : Hosts.CreateArgs,
      hasKey (Hosts.create_body { a with role_id := none }) "roleID" = false ∧
      hasKey (Hosts.create_body { a with ip_address := none }) "ipAddress" = false ∧
      hasKey (Hosts.create_body { a with static_addresses := none }) "staticAddresses" = false ∧
      hasKey (Hosts.create_body { a with tags := none }) "tags" = false ∧
      hasKey (Hosts.create_body { a with config_overrides := none }) "configOverrides" = false) ∧
    (∀ a : Hosts.ListArgs,
      hasKey (Hosts.list_params { a with cursor := none }) "cursor" = false ∧
      hasKey (Hosts.list_params { a with filter_endpoint_oidc_user_id := none })
        "filter.endpointOIDCUserID" = false ∧
      hasKey (Hosts.list_params { a with filter_is_blocked := none }) "filter.isBlocked" = false ∧
      hasKey (Hosts.list_params { a with filter_is_lighthouse := none }) "filter.isLighthouse" = false ∧
      hasKey (Hosts.list_params { a with filter_is_relay := none }) "filter.isRelay" = false ∧
      hasKey (Hosts.list_params { a with filter_metadata_last_seen_at := none })
        "filter.metadata.lastSeenAt" = false ∧
      hasKey (Hosts.list_params { a with filter_metadata_platform := none })
        "filter.metadata.platform" = false ∧
      hasKey (Hosts.list_params { a with filter_metadata_update_available := none })
        "filter.metadata.updateAvailable" = false ∧
      hasKey (Hosts.list_params { a with filter_role_id := none }) "filter.roleID" = false) ∧
    (∀ a : Hosts.UpdateArgs,
      hasKey (Hosts.update_body { a with name := none }) "name" = false ∧
      hasKey (Hosts.update_body { a with role_id := none }) "roleID" = false ∧
      hasKey (Hosts.update_body { a with static_addresses := none }) "staticAddresses" = false ∧
      hasKey (Hosts.update_body { a with listen_port := none }) "listenPort" = false ∧
      hasKey (Hosts.update_body { a with tags := none }) "tags" = false ∧
      hasKey (Hosts.update_body { a with config_overrides := none }) "configOverrides" = false) ∧
    (∀ ct : String, hasKey (Hosts.debug_command_body ct []) "args" = false) ∧
    (∀ a : Hosts.CreateArgs,
      hasKey (Hosts.create_with_enrollment_body { a with role_id := none }) "roleID" = false ∧
      hasKey (Hosts.create_with_enrollment_body { a with ip_address := none }) "ipAddress" = false ∧
      hasKey (Hosts.create_with_enrollment_body { a with static_addresses := none })
        "staticAddresses" = false ∧
      hasKey (Hosts.create_with_enrollment_body { a with tags := none }) "tags" = false ∧
      hasKey (Hosts.create_with_enrollment_body { a with config_overrides := none })
        "configOverrides" = false) ∧
    (∀ a : Roles.CreateArgs,
      hasKey (Roles.create_body { a with description := none }) "description" = false ∧
      hasKey (Roles.create_body { a with firewall_rules := none }) "firewallRules" = false) ∧
    (∀ a : PageArgs, hasKey (Roles.list_params { a with cursor := none }) "cursor" = false) ∧
    (∀ a : Roles.UpdateArgs,
      hasKey (Roles.update_body { a with description := none }) "description" = false ∧
      hasKey (Roles.update_body { a with firewall_rules := none }) "firewallRules" = false) ∧
    (∀ a : Routes.CreateArgs,
      hasKey (Routes.create_body { a with description := none }) "description" = false ∧
      hasKey (Routes.create_body { a with router_host_id := none }) "routerHostID" = false ∧
      hasKey (Routes.create_body { a with routable_cidrs := none }) "routableCIDRs" = false ∧
      hasKey (Routes.create_body { a with firewall_rules := none }) "firewallRules" = false) ∧
    (∀ a : PageArgs, hasKey (Routes.list_params { a with cursor := none }) "cursor" = false) ∧
    (∀ a : Routes.UpdateArgs,
      hasKey (Routes.update_body { a with description := none }) "description" = false ∧
      hasKey (Routes.update_body { a with router_host_id := none }) "routerHostID" = false ∧
      hasKey (Routes.update_body { a with routable_cidrs := none }) "routableCIDRs" = false ∧
      hasKey (Routes.update_body { a with firewall_rules := none }) "firewallRules" = false) ∧
    (∀ a : Tags.CreateArgs,
      hasKey (Tags.create_body { a with description := none }) "description" = false ∧
      hasKey (Tags.create_body { a with config_overrides := none }) "configOverrides" = false ∧
      hasKey (Tags.create_body { a with before := none }) "before" = false ∧
      hasKey (Tags.create_body { a with after := none }) "after" = false ∧
      hasKey (Tags.create_body { a with route_subscriptions := none }) "routeSubscriptions" = false) ∧
    (∀ a : PageArgs, hasKey (Tags.list_params { a with cursor := none }) "cursor" = false) ∧
    (∀ a : Tags.UpdateArgs,
      hasKey (Tags.update_body { a with description := none }) "description" = false ∧
      hasKey (Tags.update_body { a with config_overrides := none }) "configOverrides" = false ∧
      hasKey (Tags.update_body { a with before := none }) "before" = false ∧
      hasKey (Tags.update_body { a with after := none }) "after" = false ∧
      hasKey (Tags.update_body { a with route_subscriptions := none }) "routeSubscriptions" = false) ∧
    (∀ a : Networks.UpdateArgs,
      hasKey (Networks.update_body { a with name := none }) "name" = false ∧
      hasKey (Networks.update_body { a with cidr := none }) "cidr" = false) ∧
    (∀ a : PageArgs, hasKey (Networks.list_params { a with cursor := none }) "cursor" = false) ∧
    (∀ a : AuditLogs.ListArgs,
      hasKey (AuditLogs.list_params { a with cursor := none }) "cursor" = false ∧
      hasKey (AuditLogs.list_params { a with filter_target_id := none }) "filter.targetID" = false ∧
      hasKey (AuditLogs.list_params { a with filter_target_type := none })
        "filter.targetType" = false) := by
  refine ⟨?_, ?_, ?_, ?_, ?_, ?_, ?_, ?_, ?_, ?_, ?_, ?_, ?_, ?_, ?_, ?_, ?_⟩ <;>
  · intro a
    simp +decide [Hosts.create_body, Hosts.list_params, Hosts.update_body,
      Hosts.debug_command_body, Hosts.create_with_enrollment_body,
      Roles.create_body, Roles.list_params, Roles.update_body,
      Routes.create_body, Routes.list_params, Routes.update_body,
      Tags.create_body, Tags.list_params, Tags.update_body,
      Networks.update_body, Networks.list_params, AuditLogs.list_params,
      pageParams, hasKey_append, hasKey_cons, hasKey_nil,
      hasKey_optStrEntry_none, hasKey_optStrEntry_ne,
      hasKey_optStrListEntry_none, hasKey_optStrListEntry_ne,
      hasKey_optJsonListEntry_none, hasKey_optJsonListEntry_ne,
      hasKey_optEntry_none, hasKey_optEntry_ne, hasKey_build_params]

/-- Claim C6: `Hosts.create` with `name="n"`, `network_id="net-1"`,
    `listen_port=0` and every optional parameter unset builds exactly the
    body `{name, networkID, listenPort, isLighthouse=false, isRelay=false}`,
    omitting `roleID`, `ipAddress`, `staticAddresses`, `tags` and
    `configOverrides` entirely. -/
theorem host_create_minimal_body :
    Hosts.create_body { name := "n", network_id := "net-1", listen_port := 0 }
      = [("name", .str "n"), ("networkID", .str "net-1"), ("listenPort", .num 0),
         ("isLighthouse", .bool false), ("isRelay", .bool false)] ∧
    hasKey (Hosts.create_body { name := "n", network_id := "net-1", listen_port := 0 })
      "roleID" = false ∧
    hasKey (Hosts.create_body { name := "n", network_id := "net-1", listen_port := 0 })
      "ipAddress" = false ∧
    hasKey (Hosts.create_body { name := "n", network_id := "net-1", listen_port := 0 })
      "staticAddresses" = false ∧
    hasKey (Hosts.create_body { name := "n", network_id := "net-1", listen_port := 0 })
      "tags" = false ∧
    hasKey (Hosts.create_body { name := "n", network_id := "net-1", listen_port := 0 })
      "configOverrides" = false :=
  ⟨rfl, rfl, rfl, rfl, rfl, rfl⟩

/-- Claim C7 (counterexample): the claim is false as stated.  `Tags.get`
    interpolates the tag name verbatim: for the `key:value` tag `a:b` the
    built path is `/v1/tags/a:b`, with the reserved character `:` raw, and
    not the percent-encoded `/v1/tags/a%3Ab` the claim requires. -/
theorem tag_path_not_percent_encoded :
    Tags.get_path "a:b" = "/v1/tags/a:b" ∧
    "/v1/tags/" ++ specPercentEncode "a:b" = "/v1/tags/a%3Ab" ∧
    Tags.get_path "a:b" ≠ "/v1/tags/" ++ specPercentEncode "a:b" ∧
    ':' ∈ (Tags.get_path "a:b").toList :=
  ⟨rfl, by decide, by decide, by decide⟩

/-- Claim C7 (amended): `Tags.get`, `Tags.update` and `Tags.delete`
    interpolate the tag name into the URL path verbatim, with no
    percent-encoding: the path is exactly `/v1/tags/` followed by the raw
    tag, whose characters (reserved or not) appear unchanged as a suffix
    of the path. -/
theorem tag_path_verbatim (tag : String) :
    (Tags.get_path tag).toList = "/v1/tags/".toList ++ tag.toList ∧
    (Tags.update_path tag).toList = "/v1/tags/".toList ++ tag.toList ∧
    (Tags.delete_path tag).toList = "/v1/tags/".toList ++ tag.toList ∧
    tag.toList <:+ (Tags.get_path tag).toList ∧
    tag.toList <:+ (Tags.update_path tag).toList ∧
    tag.toList <:+ (Tags.delete_path tag).toList :=
  ⟨rfl, rfl, rfl, ⟨"/v1/tags/".toList, rfl⟩, ⟨"/v1/tags/".toList, rfl⟩,
   ⟨"/v1/tags/".toList, rfl⟩⟩

/-- Claim C8 (counterexample): the claim is false as stated.  A network
    failure raises the base `DefinedClientError` class — the very same
    exception kind raised for an unclassified non-2xx status such as 418 —
    so the transport error is not distinct in kind from every HTTP-status
    error. -/
theorem transport_error_same_kind :
    kindOf (request_outcome .networkFailure) = some .definedClientError ∧
    kindOf (request_outcome (.response ⟨418, "", none⟩)) = some .definedClientError ∧
    kindOf (request_outcome .networkFailure)
      = kindOf (request_outcome (.response ⟨418, "", none⟩)) :=
  ⟨rfl, rfl, rfl⟩

/-- Claim C8 (amended): a network-level failure raises `DefinedClientError`
    with message `"Network error"` and no status code, whereas every
    `DefinedClientError` actually raised for an HTTP response on the error
    path carries the response's status code — so the transport failure is
    distinguishable from those by its absent status code, but its
    exception class is the base `DefinedClientError`, shared with the
    generic client error; and an error response whose body parses to valid
    non-object JSON raises an uncaught `AttributeError` that is no
    `DefinedClientError` at all. -/
theorem transport_error_shape :
    request_outcome .networkFailure
      = .error (mkError .definedClientError "Network error" none none) ∧
    (mkError .definedClientError "Network error" none none).status_code = none ∧
    (∀ (r : HTTPResponse) (e : ApiError), r.ok = false → classify_error r = some e →
      request_outcome (.response r) = .error e ∧ e.status_code = some r.status_code) ∧
    (∀ r : HTTPResponse, r.ok = false → classify_error r = none →
      request_outcome (.response r) = .attributeError) :=
  ⟨rfl, rfl,
   fun r e h he => ⟨handle_response_error r e h he, classify_error_some_status r e he⟩,
   fun r h hn => handle_response_attr r h hn⟩

/-- Claim C8 (witness): the amended statement applied to a concrete 503
    response with an empty body (server error carrying status 503, unlike
    the transport error's absent status code) and to a concrete 502
    response with the non-object body `[]` (uncaught `AttributeError`). -/
theorem transport_error_shape_witness :
    (request_outcome (.response ⟨503, "", none⟩) = .error (statusError 503 none) ∧
     (statusError 503 none).status_code = some 503) ∧
    request_outcome (.response ⟨502, "[]", some (.arr [])⟩) = .attributeError :=
  ⟨transport_error_shape.2.2.1 ⟨503, "", none⟩ (statusError 503 none) rfl rfl,
   transport_error_shape.2.2.2 ⟨502, "[]", some (.arr [])⟩ rfl rfl⟩

/-- Claim C9: the URL built by `_request` is the base with all trailing
    slashes removed, a single `/`, and the endpoint with all leading
    slashes removed; the fragment before the junction never ends in `/`
    and the fragment after it never starts with `/`, so the junction holds
    exactly one slash for every combination of trailing/leading slashes. -/
theorem url_join_normalized (base endpoint : String) :
    (buildUrl base endpoint).toList
      = dropTrailingSlashes base.toList ++ '/' :: dropLeadingSlashes endpoint.toList ∧
    (∀ c, (dropTrailingSlashes base.toList).getLast? = some c → c ≠ '/') ∧
    (∀ c, (dropLeadingSlashes endpoint.toList).head? = some c → c ≠ '/') := by
  refine ⟨?_, getLast_dropTrailingSlashes _, head_dropLeadingSlashes _⟩
  have h1 : (buildUrl base endpoint).toList
      = (dropTrailingSlashes base.toList ++ ['/']) ++ dropLeadingSlashes endpoint.toList := rfl
  rw [h1, List.append_assoc]
  rfl

/-- Claim C9 (witness): the join applied to a base with a trailing slash
    and an endpoint with doubled leading slashes; the characters adjacent
    to the junction are not slashes. -/
theorem url_join_normalized_witness :
    (buildUrl "https://api.defined.net/" "//v1/hosts").toList
      = dropTrailingSlashes "https://api.defined.net/".toList
          ++ '/' :: dropLeadingSlashes "//v1/hosts".toList ∧
    't' ≠ '/' ∧ 'v' ≠ '/' :=
  ⟨(url_join_normalized "https://api.defined.net/" "//v1/hosts").1,
   (url_join_normalized "https://api.defined.net/" "//v1/hosts").2.1 't' (by decide),
   (url_join_normalized "https://api.defined.net/" "//v1/hosts").2.2 'v' (by decide)⟩

/-- Claim C10: in `Hosts.create` and `Hosts.create_with_enrollment`, an
    optional parameter supplied with a falsy value (empty string for
    `role_id`/`ip_address`, empty list for `static_addresses`/`tags`/
    `config_overrides`) produces exactly the body built with the parameter
    unset — the key is omitted — unlike `Hosts.update`, which includes any
    value that is not `None`, empty values included. -/
theorem create_falsy_optionals_omitted :
    (∀ a : Hosts.CreateArgs,
      Hosts.create_body { a with role_id := some "" }
        = Hosts.create_body { a with role_id := none } ∧
      Hosts.create_body { a with ip_address := some "" }
        = Hosts.create_body { a with ip_address := none } ∧
      Hosts.create_body { a with static_addresses := some [] }
        = Hosts.create_body { a with static_addresses := none } ∧
      Hosts.create_body { a with tags := some [] }
        = Hosts.create_body { a with tags := none } ∧
      Hosts.create_body { a with config_overrides := some [] }
        = Hosts.create_body { a with config_overrides := none }) ∧
    (∀ a : Hosts.CreateArgs,
      Hosts.create_with_enrollment_body { a with role_id := some "" }
        = Hosts.create_with_enrollment_body { a with role_id := none } ∧
      Hosts.create_with_enrollment_body { a with ip_address := some "" }
        = Hosts.create_with_enrollment_body { a with ip_address := none } ∧
      Hosts.create_with_enrollment_body { a with static_addresses := some [] }
        = Hosts.create_with_enrollment_body { a with static_addresses := none } ∧
      Hosts.create_with_enrollment_body { a with tags := some [] }
        = Hosts.create_with_enrollment_body { a with tags := none } ∧
      Hosts.create_with_enrollment_body { a with config_overrides := some [] }
        = Hosts.create_with_enrollment_body { a with config_overrides := none }) ∧
    (∀ a : Hosts.UpdateArgs,
      ("name", Json.str "") ∈ Hosts.update_body { a with name := some "" } ∧
      ("roleID", Json.str "") ∈ Hosts.update_body { a with role_id := some "" } ∧
      ("staticAddresses", Json.arr []) ∈
        Hosts.update_body { a with static_addresses := some [] } ∧
      ("tags", Json.arr []) ∈ Hosts.update_body { a with tags := some [] } ∧
      ("configOverrides", Json.arr []) ∈
        Hosts.update_body { a with config_overrides := some [] }) := by
  refine ⟨?_, ?_, ?_⟩ <;>
  · intro a
    simp [Hosts.create_body, Hosts.create_with_enrollment_body, Hosts.update_body,
      optStrEntry, optStrListEntry, optJsonListEntry, optEntry]

end DefinedClient
